import Mathlib

/-!
Shallow embedding of the RADAR-X threat decision and mitigation pipeline
(repository `ransomware-defense-system`), together with theorems checking the
natural-language specification against the code.

Sources embedded here:
- `RADAR_DEMO/Stage3_Mitigate/attack_chain_tracker.py` (AttackChainTracker)
- `RADAR_DEMO/Stage1_Predict/feature_extractor.py` (FeatureExtractor)
- `RADAR_DEMO/Stage1_Predict/ml_detector.py` (RansomwareMLDetector)
- `RADAR_DEMO/integrated_system.py` (IntegratedBackend.get_system_state)
- `RADAR_FINAL/Stage1_Predict/stage1_integrated_backup.py`
  (Stage1IntegratedSystem.analyze_current_state)
- `RADAR_FINAL/Stage3_Mitigate/mitigation_actions.py` (MitigationEngine)
- `RADAR_FINAL/Stage3_Mitigate/stage3_mitigation.py`
  (Stage3ProtectionPipeline.respond_to_threat)

Modelling conventions: Python floats are modelled as rationals (every constant
and operation the claims touch is exact rational arithmetic); `numpy.std`,
which involves a square root, is passed as an opaque function parameter (all
claims evaluate it only on branches guarded away from it); wall-clock readings
and external-effect outcomes (process kill, chmod, the trained classifier's
outputs) are explicit parameters; Python dict telemetry records are structures,
with `.get` defaults reflected as `Option` fields where the code checks
presence.
-/

/-! ## Attack Chain Tracker (`attack_chain_tracker.py`) -/

/-- Static information of one MITRE technique node of `ATTACK_CHAIN`. -/
structure TechInfo where
  name : String
  stage : Nat
  next_stages : List String
  description : String
deriving DecidableEq, Repr

/-- The static `ATTACK_CHAIN` technique graph, keyed by technique id
(`attack_chain_tracker.py` lines 19-74). Ids outside the table give `none`
(the Python code reads it with `.get(technique_id)`). -/
def ATTACK_CHAIN (technique_id : String) : Option TechInfo :=
  if technique_id = "T1566" then
    some ⟨"Phishing", 1, ["T1204", "T1059"], "Initial Access - Malicious attachment/link"⟩
  else if technique_id = "T1204" then
    some ⟨"User Execution", 2, ["T1059", "T1055"], "Execution - User opens malicious file"⟩
  else if technique_id = "T1059" then
    some ⟨"Command and Scripting", 3, ["T1055", "T1082"], "Execution - PowerShell/cmd execution"⟩
  else if technique_id = "T1055" then
    some ⟨"Process Injection", 4, ["T1082", "T1083"], "Defense Evasion - Inject into legitimate process"⟩
  else if technique_id = "T1082" then
    some ⟨"System Information Discovery", 5, ["T1083", "T1490"], "Discovery - Gather system info"⟩
  else if technique_id = "T1083" then
    some ⟨"File and Directory Discovery", 6, ["T1490", "T1486"], "Discovery - Enumerate files for encryption"⟩
  else if technique_id = "T1490" then
    some ⟨"Inhibit System Recovery", 7, ["T1486"], "Impact - Delete shadow copies/backups"⟩
  else if technique_id = "T1486" then
    some ⟨"Data Encrypted for Impact", 8, ["T1657"], "Impact - Encrypt user files"⟩
  else if technique_id = "T1657" then
    some ⟨"Ransom Note", 9, [], "Impact - Display ransom demand"⟩
  else none

/-- One entry of `detected_techniques` / `attack_timeline` (the record dict
built in `_record_technique`).  The wall-clock timestamp is a `Nat` tick. -/
structure TechRecord where
  id : String
  name : String
  stage : Nat
  timestamp : Nat
  description : String
deriving DecidableEq, Repr

/-- Mutable state of one `AttackChainTracker` instance. -/
structure TrackerState where
  detected_techniques : List TechRecord
  current_stage : Nat
  attack_timeline : List TechRecord
deriving DecidableEq, Repr

/-- `AttackChainTracker.__init__`. -/
def tracker_init : TrackerState := ⟨[], 0, []⟩

/-- The ids of the techniques detected so far (the list comprehension
`[t["id"] for t in self.detected_techniques]` in `_record_technique`). -/
def detected_ids (s : TrackerState) : List String :=
  s.detected_techniques.map (fun r => r.id)

/-- `AttackChainTracker._record_technique` (lines 122-142): record a detected
technique once per id, appending to both lists and raising `current_stage` to
the technique's stage when larger. -/
def record_technique (t : Nat) (technique_id : String) (s : TrackerState) : TrackerState :=
  if technique_id ∈ detected_ids s then s
  else
    let info := ATTACK_CHAIN technique_id
    let record : TechRecord :=
      { id := technique_id
        name := (info.map (fun i => i.name)).getD "Unknown"
        stage := (info.map (fun i => i.stage)).getD 0
        timestamp := t
        description := (info.map (fun i => i.description)).getD "" }
    { detected_techniques := s.detected_techniques ++ [record]
      attack_timeline := s.attack_timeline ++ [record]
      current_stage :=
        if record.stage > s.current_stage then record.stage else s.current_stage }

/-- Behavior indicators are a Python dict read with `.get(key)`: modelled as a
total function from key to truth value (absent keys read false). -/
def BehaviorIndicators : Type := String → Bool

/-- The pure lookup part of `AttackChainTracker.map_behavior_to_technique`
(lines 95-115): the matched technique ids, in the order the code builds them. -/
def map_behavior_to_technique (b : BehaviorIndicators) : List String :=
  let matched : List String := []
  let matched := if b "shadow_copy_deletion" then matched ++ ["T1490"] else matched
  let matched := if b "high_entropy" then matched ++ ["T1486"] else matched
  let matched := if b "file_discovery" then matched ++ ["T1083"] else matched
  let matched := if b "process_injection" then matched ++ ["T1055"] else matched
  let matched := if b "script_execution" then matched ++ ["T1059"] else matched
  let matched := if b "system_info_collection" then matched ++ ["T1082"] else matched
  matched

/-- The indicator-to-technique lookup table implicit in the if-chain of
`map_behavior_to_technique`, in source order. -/
def behavior_technique_table : List (String × String) :=
  [("shadow_copy_deletion", "T1490"),
   ("high_entropy", "T1486"),
   ("file_discovery", "T1083"),
   ("process_injection", "T1055"),
   ("script_execution", "T1059"),
   ("system_info_collection", "T1082")]

/-- `AttackChainTracker.map_behavior_to_technique` as a whole: compute the
matched ids and record each (lines 116-120). Returns the matched list and the
updated tracker state. -/
def record_behavior (t : Nat) (b : BehaviorIndicators) (s : TrackerState) :
    List String × TrackerState :=
  let matched := map_behavior_to_technique b
  (matched, matched.foldl (fun st tid => record_technique t tid st) s)

/-- `AttackChainTracker._calculate_urgency` (lines 219-228). -/
def calculate_urgency (s : TrackerState) : String :=
  if s.current_stage ≥ 7 then "CRITICAL"
  else if s.current_stage ≥ 5 then "HIGH"
  else if s.current_stage ≥ 3 then "MEDIUM"
  else "LOW"

/-- One entry of the `predicted` list built by `predict_next_stage` (lines
165-173): a technique dict looked up from `ATTACK_CHAIN`, with the defaults of
its `.get` reads. -/
structure PredictedTech where
  id : String
  name : String
  stage : Nat
  description : String
deriving DecidableEq, Repr

/-- `AttackChainTracker._get_recommended_actions` (lines 193-217). The Python
returns `list(set(actions))`; the unspecified CPython set iteration order is
abstracted as first-occurrence deduplication. -/
def get_recommended_actions (predicted_techniques : List PredictedTech) : List String :=
  let actions := predicted_techniques.foldl (fun acc tech =>
    if tech.id = "T1490" then
      acc ++ ["URGENT: Block access to shadow copies",
              "Protect backup systems immediately"]
    else if tech.id = "T1486" then
      acc ++ ["CRITICAL: Lock all sensitive folders NOW",
              "Isolate system from network",
              "Kill suspicious processes immediately"]
    else if tech.id = "T1083" then
      acc ++ ["Monitor file system access patterns",
              "Enable honeypot file alerts"]
    else if tech.id = "T1055" then
      acc ++ ["Monitor process creation/injection",
              "Enable process integrity checks"]
    else acc) []
  if actions = [] then ["Continue enhanced monitoring"] else actions.dedup

/-- The prediction dict returned by `AttackChainTracker.predict_next_stage`
(lines 144-191). The early return for an empty detected list (lines 151-156)
carries only the first three keys: `current_stage`, `current_technique` and
`urgency` are absent from that dict, modelled as `none`. -/
structure Prediction where
  predicted_techniques : List PredictedTech
  confidence : ℚ
  recommended_actions : List String
  current_stage : Option Nat
  current_technique : Option TechRecord
  urgency : Option String
deriving DecidableEq, Repr

/-- `AttackChainTracker.predict_next_stage` (lines 144-191): the keyless
early dict on an empty detected list, otherwise the next-stage lookup of the
most recently recorded technique with saturating confidence
`min(0.95, 0.5 + 0.08 * current_stage)` and depth-derived urgency. -/
def predict_next_stage (s : TrackerState) : Prediction :=
  match s.detected_techniques.getLast? with
  | none =>
    { predicted_techniques := []
      confidence := 0
      recommended_actions := ["Continue monitoring"]
      current_stage := none
      current_technique := none
      urgency := none }
  | some latest =>
    let next_stages := ((ATTACK_CHAIN latest.id).map (fun i => i.next_stages)).getD []
    let predicted := next_stages.map (fun next_id =>
      let info := ATTACK_CHAIN next_id
      { id := next_id
        name := (info.map (fun i => i.name)).getD "Unknown"
        stage := (info.map (fun i => i.stage)).getD 0
        description := (info.map (fun i => i.description)).getD "" })
    { predicted_techniques := predicted
      confidence := min (95/100 : ℚ) (1/2 + (s.current_stage : ℚ) * (8/100))
      recommended_actions := get_recommended_actions predicted
      current_stage := some s.current_stage
      current_technique := some latest
      urgency := some (calculate_urgency s) }

/-! ## Feature Extractor (`feature_extractor.py`) -/

/-- One file-event record of the telemetry input. `entropy` is optional (the
code checks key presence); the other keys are always present on real events. -/
structure FileEvent where
  type : String
  timestamp : ℚ
  path : String
  entropy : Option ℚ
deriving DecidableEq, Repr

/-- One process snapshot of the telemetry input. `write_bytes` models the
optional `io_counters.write_bytes` field. -/
structure ProcessInfo where
  cpu_percent : ℚ
  memory_mb : ℚ
  threat_score : ℚ
  write_bytes : Option ℚ
  start_time : ℚ
deriving DecidableEq, Repr

/-- Decoy status as returned by `HoneypotManager.get_status`. -/
structure HoneypotStatus where
  total_honeypots : Nat
  compromised : Nat
deriving DecidableEq, Repr

/-- Python `max` over a nonempty list, with the code's `if values else 0`
fallback for the empty list. -/
def py_list_max (l : List ℚ) : ℚ :=
  match l with
  | [] => 0
  | x :: xs => xs.foldl max x

/-- `FeatureExtractor.extract_file_features` (lines 19-63): five file-activity
features. `now` is the `time.time()` reading. -/
def extract_file_features (now : ℚ) (file_events : List FileEvent) : List ℚ :=
  match file_events with
  | [] => [0, 0, 0, 0, 0]
  | e0 :: _ =>
    let modified : ℚ := ((file_events.filter (fun e => e.type = "modified")).length : ℚ)
    let created : ℚ := ((file_events.filter (fun e => e.type = "created")).length : ℚ)
    let deleted : ℚ := ((file_events.filter (fun e => e.type = "deleted")).length : ℚ)
    let time_span := max ((now - e0.timestamp) / 60) 1
    let entropies := file_events.filterMap (fun e => e.entropy)
    let avg_entropy := if entropies = [] then 0 else entropies.sum / (entropies.length : ℚ)
    let extensions :=
      (file_events.filterMap (fun e =>
        if e.path.contains '.' then some ((e.path.splitOn ".").getLastD "") else none)).dedup
    [modified / time_span, created / time_span, deleted / time_span,
     avg_entropy, (extensions.length : ℚ)]

/-- `FeatureExtractor.extract_process_features` (lines 65-109): five process
features. -/
def extract_process_features (now : ℚ) (process_data : List ProcessInfo) : List ℚ :=
  match process_data with
  | [] => [0, 0, 0, 0, 0]
  | _ :: _ =>
    let max_cpu := py_list_max (process_data.map (fun p => p.cpu_percent))
    let total_memory := (process_data.map (fun p => p.memory_mb)).sum
    let suspicious_count : ℚ :=
      ((process_data.filter (fun p => p.threat_score > 30)).length : ℚ)
    let write_rates := process_data.filterMap
      (fun p => p.write_bytes.map (fun w => w / (1024 * 1024)))
    let disk_write_rate := write_rates.sum
    let new_processes : ℚ :=
      ((process_data.filter (fun p => now - p.start_time < 60)).length : ℚ)
    [max_cpu, total_memory, suspicious_count, disk_write_rate, new_processes]

/-- `FeatureExtractor.extract_honeypot_features` (lines 111-128): two decoy
features; `none` models the falsy empty dict. -/
def extract_honeypot_features (honeypot_status : Option HoneypotStatus) : List ℚ :=
  match honeypot_status with
  | none => [0, 0]
  | some hp =>
    let compromised : ℚ := (hp.compromised : ℚ)
    let total : ℚ := (hp.total_honeypots : ℚ)
    let access_rate := if total > 0 then compromised / total else 0
    [compromised, access_rate]

/-- `FeatureExtractor.extract_temporal_features` (lines 130-168): three
temporal features. `np.std` (a square root, hence irrational) is passed in as
the opaque `std` parameter; every claim below evaluates this function only on
inputs with fewer than two events, where the guard returns before `std` is
consulted. -/
def extract_temporal_features (std : List ℚ → ℚ) (file_events : List FileEvent) : List ℚ :=
  if file_events.length < 2 then [0, 0, 1]
  else
    let sorted_events := file_events.mergeSort (fun a b => a.timestamp ≤ b.timestamp)
    let deltas := (sorted_events.zip sorted_events.tail).map
      (fun p => p.2.timestamp - p.1.timestamp)
    let acceleration :=
      if deltas.length ≥ 2 then (deltas.getLastD 0 - deltas.headD 0) / (deltas.length : ℚ)
      else 0
    let burst_score := if deltas.length > 1 then std deltas else 0
    let mean_delta := if deltas = [] then 1 else deltas.sum / (deltas.length : ℚ)
    let consistency := if mean_delta > 0 then burst_score / mean_delta else 0
    [acceleration, burst_score, consistency]

/-- `FeatureExtractor.extract_all_features` (lines 170-190): the raw
15-dimensional feature vector. -/
def extract_all_features (std : List ℚ → ℚ) (now : ℚ) (file_events : List FileEvent)
    (process_data : List ProcessInfo) (honeypot_status : Option HoneypotStatus) : List ℚ :=
  extract_file_features now file_events ++
  extract_process_features now process_data ++
  extract_honeypot_features honeypot_status ++
  extract_temporal_features std file_events

/-- The fixed per-feature saturation ceilings of
`FeatureExtractor.normalize_features` (lines 219-235). -/
def max_values : List ℚ :=
  [100, 50, 50, 8, 20, 100, 2000, 10, 100, 20, 10, 1, 1, 10, 2]

/-- `FeatureExtractor.normalize_features` (lines 216-244): replace zero
ceilings by 1, divide pointwise, clip to [0, 1]. -/
def normalize_features (features : List ℚ) : List ℚ :=
  let mv := max_values.map (fun c => if c = 0 then 1 else c)
  (features.zip mv).map (fun p => min (max (p.1 / p.2) 0) 1)

/-- Activity mass of a feature vector: `float(np.sum(np.abs(v)))`. -/
def activity_mass (features : List ℚ) : ℚ :=
  (features.map (fun x => |x|)).sum

/-! ## ML Detector (`ml_detector.py`) -/

/-- Output of the opaque trained Isolation Forest on one input: the
categorical prediction of `model.predict` (1 normal, -1 anomalous) and the raw
`model.decision_function` value (more anomalous means more negative). -/
structure OracleOutput where
  pred : ℤ
  decision_value : ℚ
deriving DecidableEq, Repr

/-- `RansomwareMLDetector.predict` (lines 66-79): hard `ValueError` when the
model is untrained, the model's categorical output otherwise. -/
def ml_predict (is_trained : Bool) (o : OracleOutput) : Except String ℤ :=
  if is_trained then Except.ok o.pred
  else Except.error "Model must be trained before prediction!"

/-- `RansomwareMLDetector.predict_proba` (lines 81-104): hard error when
untrained; otherwise map the raw decision value d to
`clip((-d + 0.5) * 100, 0, 100)`. -/
def ml_predict_proba (is_trained : Bool) (o : OracleOutput) : Except String ℚ :=
  if is_trained then Except.ok (min (max ((-o.decision_value + 1/2) * 100) 0) 100)
  else Except.error "Model must be trained before prediction!"

/-- `RansomwareMLDetector.predict_with_confidence` (lines 106-117). -/
def predict_with_confidence (is_trained : Bool) (o : OracleOutput) :
    Except String (ℤ × ℚ) :=
  (ml_predict is_trained o).bind (fun p =>
    (ml_predict_proba is_trained o).map (fun s => (p, s)))

/-! ## DEMO pipeline (`integrated_system.py`, IntegratedBackend.get_system_state) -/

/-- The verdict dict returned by `IntegratedBackend.get_system_state` (the
fields the claims are about). -/
structure SystemState where
  threat_score : ℚ
  threat_level : String
  prediction : String
  feature_sum : ℚ
  is_idle : Bool
deriving DecidableEq, Repr

/-- `IntegratedBackend._simulate_state` (lines 221-241): demo fallback.
`sim_score` and `sim_fsum` stand for the `random.uniform` draws; prediction is
always NORMAL, level always LOW, is_idle always false. -/
def simulate_state (sim_score sim_fsum : ℚ) : SystemState :=
  { threat_score := sim_score
    threat_level := "LOW"
    prediction := "NORMAL"
    feature_sum := sim_fsum
    is_idle := false }

/-- Activity mass of the tick as computed inside `get_system_state` (lines
164-172); note the source passes `file_events=[]` there. -/
def demo_feature_sum (std : List ℚ → ℚ) (now : ℚ) (process_data : List ProcessInfo)
    (honeypot_status : HoneypotStatus) : ℚ :=
  activity_mass (normalize_features
    (extract_all_features std now [] process_data (some honeypot_status)))

/-- `IntegratedBackend.get_system_state` (lines 150-219): idle short-circuit at
threshold 4.0, classifier consultation, decoy override, threat-level grading.
The enclosing `try` catches any exception (in particular the untrained-model
`ValueError` of `predict`) and returns `_simulate_state()`. -/
def get_system_state (is_trained : Bool) (o : OracleOutput) (sim_score sim_fsum : ℚ)
    (std : List ℚ → ℚ) (now : ℚ) (process_data : List ProcessInfo)
    (honeypot_status : HoneypotStatus) : SystemState :=
  let feature_sum := demo_feature_sum std now process_data honeypot_status
  let IDLE_THRESHOLD : ℚ := 4
  let is_idle := feature_sum < IDLE_THRESHOLD
  let step : Except String (ℤ × ℚ) :=
    if is_idle then Except.ok (1, 5)
    else predict_with_confidence is_trained o
  match step with
  | Except.error _ => simulate_state sim_score sim_fsum
  | Except.ok (prediction, score0) =>
    let is_ransomware0 : Bool := if is_idle then false else decide (prediction = -1)
    let threat_score :=
      if honeypot_status.compromised > 0 then max score0 90 else score0
    let is_ransomware :=
      if honeypot_status.compromised > 0 then true else is_ransomware0
    let threat_level :=
      if honeypot_status.compromised > 0 ∨ threat_score > 70 then "CRITICAL"
      else if threat_score > 50 then "HIGH"
      else if threat_score > 30 then "MEDIUM"
      else "LOW"
    { threat_score := threat_score
      threat_level := threat_level
      prediction := if is_ransomware then "RANSOMWARE" else "NORMAL"
      feature_sum := feature_sum
      is_idle := is_idle }

/-! ## FINAL pipeline (`stage1_integrated_backup.py`,
Stage1IntegratedSystem.analyze_current_state) -/

/-- The analysis dict returned by `analyze_current_state` (the fields the
claims are about). -/
structure Analysis where
  prediction : String
  threat_score : ℚ
  threat_level : String
  feature_sum : ℚ
  is_idle : Bool
deriving DecidableEq, Repr

/-- Activity mass of the tick as computed inside `analyze_current_state`
(lines 193-204). -/
def analysis_feature_sum (std : List ℚ → ℚ) (now : ℚ) (recent_files : List FileEvent)
    (recent_processes : List ProcessInfo) (honeypot_status : HoneypotStatus) : ℚ :=
  activity_mass (normalize_features
    (extract_all_features std now recent_files recent_processes (some honeypot_status)))

/-- The (prediction_value, threat_score_value) pair before the decoy override
(lines 207-219): deterministic idle verdict below threshold 0.5, classifier
consultation otherwise. -/
def analysis_base (is_trained : Bool) (o : OracleOutput) (std : List ℚ → ℚ) (now : ℚ)
    (recent_files : List FileEvent) (recent_processes : List ProcessInfo)
    (honeypot_status : HoneypotStatus) : Except String (ℤ × ℚ) :=
  let feature_sum := analysis_feature_sum std now recent_files recent_processes honeypot_status
  let is_idle := feature_sum < (1/2 : ℚ)
  if is_idle then Except.ok (1, 5)
  else predict_with_confidence is_trained o

/-- `Stage1IntegratedSystem.analyze_current_state` (lines 170-247): feature
extraction and normalization, idle override at threshold 0.5, classifier
consultation, decoy override, threat-level grading. There is no `try` here:
the untrained-model `ValueError` propagates to the caller. -/
def analyze_current_state (is_trained : Bool) (o : OracleOutput) (std : List ℚ → ℚ)
    (now : ℚ) (recent_files : List FileEvent) (recent_processes : List ProcessInfo)
    (honeypot_status : HoneypotStatus) : Except String Analysis :=
  let feature_sum := analysis_feature_sum std now recent_files recent_processes honeypot_status
  let is_idle := feature_sum < (1/2 : ℚ)
  (analysis_base is_trained o std now recent_files recent_processes honeypot_status).map
    (fun pr =>
      let prediction_value := pr.1
      let base_score := pr.2
      let is_ransomware0 : Bool := if is_idle then false else decide (prediction_value = -1)
      let threat_score :=
        if honeypot_status.compromised > 0 then max base_score 90 else base_score
      let is_ransomware :=
        if honeypot_status.compromised > 0 then true else is_ransomware0
      let threat_level :=
        if honeypot_status.compromised > 0 then "CRITICAL"
        else if is_ransomware0 = true ∨ base_score > 70 then "CRITICAL"
        else if base_score > 50 then "HIGH"
        else if base_score > 30 then "MEDIUM"
        else "LOW"
      { prediction := if is_ransomware then "RANSOMWARE" else "NORMAL"
        threat_score := threat_score
        threat_level := threat_level
        feature_sum := feature_sum
        is_idle := is_idle })

/-! ## Mitigation Orchestrator (`mitigation_actions.py`, `stage3_mitigation.py`) -/

/-- One mitigation step result dict: action, success, details, timestamp and
optional error, plus the per-action payload fields. -/
structure ActionResult where
  action : String
  success : Bool
  details : String := ""
  locked_folders : List String := []
  restored_files : Nat := 0
  error : Option String := none
deriving DecidableEq, Repr

/-- Outcome of the external `process.kill()` call on an existing pid. -/
inductive KillOutcome where
  | killed (process_name : String)
  | no_such_process
  | failed (msg : String)
deriving DecidableEq, Repr

/-- `MitigationEngine.kill_malicious_process` (lines 106-137). The `if pid and
psutil.pid_exists(pid)` guard: a `None` or `0` pid (Python falsy) or a
nonexistent pid takes the "already gone" branch with `success=True`; every
exception from the kill path is caught locally (`NoSuchProcess` also counts as
success), so the step never raises. -/
def kill_malicious_process (pid : Option ℤ) (pid_exists : ℤ → Bool)
    (outcome : KillOutcome) : ActionResult :=
  match pid with
  | none =>
    { action := "KILL_PROCESS", success := true
      details := "Process not found or already terminated" }
  | some p =>
    if p ≠ 0 ∧ pid_exists p then
      match outcome with
      | KillOutcome.killed process_name =>
        { action := "KILL_PROCESS", success := true
          details := "Killed process " ++ process_name }
      | KillOutcome.no_such_process =>
        { action := "KILL_PROCESS", success := true
          details := "Process already terminated" }
      | KillOutcome.failed msg =>
        { action := "KILL_PROCESS", success := false, error := some msg }
    else
      { action := "KILL_PROCESS", success := true
        details := "Process not found or already terminated" }

/-- The folder loop of `lock_critical_folders` (lines 160-175): lock each
existing folder in order; a chmod exception (`chmod_error f = some e`) aborts
the loop, keeping the folders locked so far. -/
def lock_folders_loop (folder_exists : String → Bool) (chmod_error : String → Option String) :
    List String → List String → List String × Option String
  | [], locked => (locked, none)
  | f :: rest, locked =>
    if folder_exists f then
      match chmod_error f with
      | some e => (locked, some e)
      | none => lock_folders_loop folder_exists chmod_error rest (locked ++ [f])
    else lock_folders_loop folder_exists chmod_error rest locked

/-- `MitigationEngine.lock_critical_folders` (lines 139-184): in demo mode only
the safe demo folder is locked, otherwise the configured critical folders; an
exception mid-loop is recorded with `success=false`, partial progress kept. -/
def lock_critical_folders (demo_mode : Bool) (critical_folders : List String)
    (folder_exists : String → Bool) (chmod_error : String → Option String) : ActionResult :=
  let folders_to_lock := if demo_mode then ["Safe_Demo_Folder"] else critical_folders
  match lock_folders_loop folder_exists chmod_error folders_to_lock [] with
  | (locked, none) =>
    { action := "LOCK_FOLDERS", success := true, locked_folders := locked
      details := "Locked " ++ toString locked.length ++ " folders" }
  | (locked, some e) =>
    { action := "LOCK_FOLDERS", success := false, locked_folders := locked
      error := some e }

/-- `MitigationEngine.isolate_network` (lines 186-222): simulated success in
demo mode; otherwise best-effort, with any exception recorded locally. -/
def isolate_network (demo_mode : Bool) (net_error : Option String) : ActionResult :=
  if demo_mode then
    { action := "NETWORK_ISOLATION", success := true
      details := "Network isolation simulated (Demo Mode)" }
  else
    match net_error with
    | none => { action := "NETWORK_ISOLATION", success := true
                details := "Network interfaces disabled" }
    | some e => { action := "NETWORK_ISOLATION", success := false, error := some e }

/-- `MitigationEngine.restore_from_backup` (lines 224-252): counts restorable
assets; no backup directory reports `success=false`. -/
def restore_from_backup (backup_dir_present : Bool) (backup_file_count : Nat) : ActionResult :=
  if backup_dir_present = false then
    { action := "BACKUP_RESTORE", success := false, restored_files := 0
      details := "No backup directory found" }
  else
    { action := "BACKUP_RESTORE", success := true, restored_files := backup_file_count
      details := "Backup ready" }

/-- The configuration surface read by `MitigationEngine._load_config`. -/
structure MitigationConfig where
  critical_folders : List String
  auto_isolate : Bool
  auto_restore : Bool
deriving DecidableEq, Repr

/-- Aggregated result of `execute_mitigation`. -/
structure MitigationResult where
  actions_taken : List ActionResult
  response_time_seconds : ℚ
  status : String
deriving DecidableEq, Repr

/-- `MitigationEngine.execute_mitigation` (lines 55-104): the ordered action
pipeline - kill, lock, then the feature-flagged isolate and restore steps;
`elapsed` is the measured wall-clock duration of the pipeline. Each step
handles its own exceptions, so the orchestrator reaches the end and reports
SUCCESS with all step results. -/
def execute_mitigation (cfg : MitigationConfig) (demo_mode : Bool) (pid : Option ℤ)
    (pid_exists : ℤ → Bool) (outcome : KillOutcome) (folder_exists : String → Bool)
    (chmod_error : String → Option String) (net_error : Option String)
    (backup_dir_present : Bool) (backup_file_count : Nat) (elapsed : ℚ) : MitigationResult :=
  let kill_result := kill_malicious_process pid pid_exists outcome
  let lock_result := lock_critical_folders demo_mode cfg.critical_folders folder_exists chmod_error
  let actions := [kill_result, lock_result] ++
    (if cfg.auto_isolate then [isolate_network demo_mode net_error] else []) ++
    (if cfg.auto_restore then [restore_from_backup backup_dir_present backup_file_count] else [])
  { actions_taken := actions
    response_time_seconds := elapsed
    status := "SUCCESS" }

/-- The response package built by `Stage3ProtectionPipeline.respond_to_threat`
(the fields the claims are about). -/
structure ResponsePackage where
  status : String
  total_response_time : ℚ
  target_met : Bool
  mitigation_result : MitigationResult
  current_stage : Nat
deriving DecidableEq, Repr

/-- `Stage3ProtectionPipeline.respond_to_threat` (lines 41-193): map the
behavior indicators through the attack tracker, call `predict_next_stage` and
subscript `prediction["current_stage"]` and `prediction["urgency"]` (lines
90-92) - when the detected list is still empty those keys are absent and the
subscript raises an uncaught `KeyError`, so no response package is produced -
then run the mitigation engine, measure total wall time from `start_time` to
`end_time` and set `target_met = total_response_time < 10` (informational,
never preemptive). Returns the package and the updated tracker state, or the
uncaught error. -/
def respond_to_threat (tracker : TrackerState) (indicators : BehaviorIndicators)
    (tick : Nat) (cfg : MitigationConfig) (demo_mode : Bool) (pid : Option ℤ)
    (pid_exists : ℤ → Bool) (outcome : KillOutcome) (folder_exists : String → Bool)
    (chmod_error : String → Option String) (net_error : Option String)
    (backup_dir_present : Bool) (backup_file_count : Nat) (mit_elapsed : ℚ)
    (start_time end_time : ℚ) : Except String (ResponsePackage × TrackerState) :=
  let rec_result := record_behavior tick indicators tracker
  let tracker1 := rec_result.2
  let prediction := predict_next_stage tracker1
  match prediction.current_stage with
  | none => Except.error "KeyError: current_stage"
  | some pred_stage =>
    match prediction.urgency with
    | none => Except.error "KeyError: urgency"
    | some _ =>
      let mitigation_result := execute_mitigation cfg demo_mode pid pid_exists outcome
        folder_exists chmod_error net_error backup_dir_present backup_file_count mit_elapsed
      let total_response_time := end_time - start_time
      Except.ok ({ status := "CONTAINED"
                   total_response_time := total_response_time
                   target_met := decide (total_response_time < 10)
                   mitigation_result := mitigation_result
                   current_stage := pred_stage }, tracker1)

/-! ## Helper lemmas for the attack chain tracker -/

/-- Recording a technique makes its id detected. -/
theorem mem_detected_ids_record (t : Nat) (i : String) (s : TrackerState) :
    i ∈ detected_ids (record_technique t i s) := by
  unfold record_technique
  split
  · assumption
  · simp [detected_ids]

/-- Recording preserves previously detected ids. -/
theorem detected_ids_record_mono (t : Nat) (i x : String) (s : TrackerState)
    (h : x ∈ detected_ids s) : x ∈ detected_ids (record_technique t i s) := by
  unfold record_technique
  split
  · exact h
  · simp [detected_ids] at h ⊢
    rcases h with ⟨r, hr, hx⟩
    exact Or.inl ⟨r, hr, hx⟩

/-- Recording an already detected id is a no-op. -/
theorem record_technique_eq_of_mem (t : Nat) (i : String) (s : TrackerState)
    (h : i ∈ detected_ids s) : record_technique t i s = s := by
  unfold record_technique
  simp [h]

/-- Recording never lowers the current stage. -/
theorem current_stage_le_record (t : Nat) (i : String) (s : TrackerState) :
    s.current_stage ≤ (record_technique t i s).current_stage := by
  unfold record_technique
  split
  · exact le_refl _
  · simp only
    split
    · omega
    · exact le_refl _

/-- Folding `record_technique` over a list of ids never lowers the stage. -/
theorem current_stage_le_foldl_record (t : Nat) (l : List String) (s : TrackerState) :
    s.current_stage ≤ (l.foldl (fun st tid => record_technique t tid st) s).current_stage := by
  induction l generalizing s with
  | nil => exact le_refl _
  | cons a l ih =>
    exact le_trans (current_stage_le_record t a s) (ih (record_technique t a s))

/-- Folding preserves previously detected ids. -/
theorem detected_ids_foldl_mono (t : Nat) (l : List String) (s : TrackerState) (x : String)
    (h : x ∈ detected_ids s) :
    x ∈ detected_ids (l.foldl (fun st tid => record_technique t tid st) s) := by
  induction l generalizing s with
  | nil => exact h
  | cons a l ih => exact ih _ (detected_ids_record_mono t a x s h)

/-- After folding, every id of the list is detected. -/
theorem mem_detected_ids_foldl (t : Nat) (l : List String) (s : TrackerState) (x : String)
    (h : x ∈ l) :
    x ∈ detected_ids (l.foldl (fun st tid => record_technique t tid st) s) := by
  induction l generalizing s with
  | nil => cases h
  | cons a l ih =>
    rcases List.mem_cons.mp h with rfl | hx
    · exact detected_ids_foldl_mono t l _ x (mem_detected_ids_record t x s)
    · exact ih _ hx

/-- Folding over ids that are all already detected is a no-op. -/
theorem foldl_record_eq_of_all_mem (t : Nat) (l : List String) (s : TrackerState)
    (h : ∀ x ∈ l, x ∈ detected_ids s) :
    l.foldl (fun st tid => record_technique t tid st) s = s := by
  induction l generalizing s with
  | nil => rfl
  | cons a l ih =>
    have ha := record_technique_eq_of_mem t a s (h a (List.mem_cons_self a l))
    simp only [List.foldl_cons, ha]
    exact ih s (fun x hx => h x (List.mem_cons_of_mem a hx))

/-- C4: over any sequence of `recordBehavior` calls on one tracker instance,
`current_stage` is monotonically non-decreasing: it does not decrease over a
single call, nor over any sequence of calls. -/
theorem current_stage_monotone :
    (∀ (t : Nat) (b : BehaviorIndicators) (s : TrackerState),
      s.current_stage ≤ ((record_behavior t b s).2).current_stage) ∧
    (∀ (calls : List (Nat × BehaviorIndicators)) (s : TrackerState),
      s.current_stage ≤
        (calls.foldl (fun st c => (record_behavior c.1 c.2 st).2) s).current_stage) := by
  constructor
  · intro t b s
    exact current_stage_le_foldl_record t (map_behavior_to_technique b) s
  · intro calls
    induction calls with
    | nil => intro s; exact le_refl _
    | cons c calls ih =>
      intro s
      exact le_trans (current_stage_le_foldl_record c.1 (map_behavior_to_technique c.2) s)
        (ih _)

/-- C5: recording the same behavior indicator set twice leaves the tracker in
the same state as recording it once; in particular the detected-technique list
(count and ids) is unchanged by the second recording. -/
theorem record_behavior_idempotent (t1 t2 : Nat) (b : BehaviorIndicators) (s : TrackerState) :
    (record_behavior t2 b (record_behavior t1 b s).2).2 = (record_behavior t1 b s).2 ∧
    detected_ids (record_behavior t2 b (record_behavior t1 b s).2).2 =
      detected_ids (record_behavior t1 b s).2 ∧
    ((record_behavior t2 b (record_behavior t1 b s).2).2).detected_techniques.length =
      ((record_behavior t1 b s).2).detected_techniques.length := by
  have hstate : (record_behavior t2 b (record_behavior t1 b s).2).2 = (record_behavior t1 b s).2 := by
    unfold record_behavior
    exact foldl_record_eq_of_all_mem t2 (map_behavior_to_technique b) _
      (fun x hx => mem_detected_ids_foldl t1 (map_behavior_to_technique b) s x hx)
  exact ⟨hstate, by rw [hstate], by rw [hstate]⟩

/-- C6 counterexample: a decoy-access indicator (the `honeypot_hit` key that
the repository's own detection payloads use, or a literal `decoy_access` key)
matches no technique, while the `shadow_copy_deletion` flag - absent from the
claim's list of six - yields T1490. -/
theorem behavior_table_decoy_access_counterexample :
    map_behavior_to_technique (fun k => k == "honeypot_hit") = [] ∧
    map_behavior_to_technique (fun k => k == "decoy_access") = [] ∧
    map_behavior_to_technique (fun k => k == "shadow_copy_deletion") = ["T1490"] := by
  refine ⟨rfl, rfl, rfl⟩

/-- C6 amended: the lookup table maps exactly the six boolean flags
shadow-copy deletion, high entropy, file discovery, process injection, script
execution and system-info collection to one technique id each; the matched
list is exactly the table entries whose flag is set, and no other indicator
key contributes. -/
theorem behavior_table_exact (b : BehaviorIndicators) :
    map_behavior_to_technique b =
      (behavior_technique_table.filter (fun p => b p.1)).map (fun p => p.2) := by
  simp only [map_behavior_to_technique, behavior_technique_table]
  cases hb1 : b "shadow_copy_deletion" <;>
  cases hb2 : b "high_entropy" <;>
  cases hb3 : b "file_discovery" <;>
  cases hb4 : b "process_injection" <;>
  cases hb5 : b "script_execution" <;>
  cases hb6 : b "system_info_collection" <;>
  simp [hb1, hb2, hb3, hb4, hb5, hb6, List.filter]

/-- Evaluation of the FINAL pipeline activity mass on the empty-telemetry
tick: exactly one half. -/
theorem analysis_feature_sum_empty (std : List ℚ → ℚ) (now : ℚ) :
    analysis_feature_sum std now [] [] ⟨8, 0⟩ = 1/2 := by
  simp [analysis_feature_sum, activity_mass, normalize_features, extract_all_features,
    extract_file_features, extract_process_features, extract_honeypot_features,
    extract_temporal_features, max_values]
  norm_num

/-- Evaluation of the FINAL pipeline on the empty-telemetry tick with a
trained oracle that answers (1, 0): mass one half is not below the 0.5
threshold, so the tick is not idle and the verdict follows the oracle. -/
theorem analysis_empty_tick_eval :
    analyze_current_state true ⟨1, 0⟩ (fun _ => 0) 0 [] [] ⟨8, 0⟩ =
      Except.ok ⟨"NORMAL", 50, "MEDIUM", 1/2, false⟩ := by
  have hsum := analysis_feature_sum_empty (fun _ : List ℚ => (0 : ℚ)) 0
  unfold analyze_current_state analysis_base
  rw [hsum]
  norm_num [predict_with_confidence, ml_predict, ml_predict_proba, Except.map, Except.bind]

/-- C1 amended: when the classifier oracle is unavailable (untrained model)
and the activity mass is at or above the 0.5 idle threshold,
`analyze_current_state` surfaces the hard error to the caller instead of
producing any verdict. -/
theorem untrained_nonidle_hard_error (o : OracleOutput) (std : List ℚ → ℚ) (now : ℚ)
    (fs : List FileEvent) (ps : List ProcessInfo) (hp : HoneypotStatus)
    (h : (1/2 : ℚ) ≤ analysis_feature_sum std now fs ps hp) :
    analyze_current_state false o std now fs ps hp =
      Except.error "Model must be trained before prediction!" := by
  have hni : ¬ (analysis_feature_sum std now fs ps hp < (1/2 : ℚ)) := not_lt.mpr h
  have hbase : analysis_base false o std now fs ps hp =
      Except.error "Model must be trained before prediction!" := by
    unfold analysis_base
    simp only []
    rw [if_neg hni]
    rfl
  unfold analyze_current_state
  rw [hbase]
  rfl

/-- Witness for `untrained_nonidle_hard_error`: the empty-telemetry tick has
activity mass exactly 0.5, which meets the threshold, and the untrained FINAL
pipeline errors there. -/
theorem untrained_nonidle_hard_error_witness :
    (1/2 : ℚ) ≤ analysis_feature_sum (fun _ => 0) 0 [] [] ⟨8, 0⟩ ∧
    analyze_current_state false ⟨1, 0⟩ (fun _ => 0) 0 [] [] ⟨8, 0⟩ =
      Except.error "Model must be trained before prediction!" := by
  have hle : (1/2 : ℚ) ≤ analysis_feature_sum (fun _ => 0) 0 [] [] ⟨8, 0⟩ := by
    rw [analysis_feature_sum_empty]
  exact ⟨hle, untrained_nonidle_hard_error ⟨1, 0⟩ (fun _ => 0) 0 [] [] ⟨8, 0⟩ hle⟩

/-- Evaluation of the DEMO pipeline activity mass on a four-process hot tick:
41/10, at or above the DEMO idle threshold 4.0. -/
theorem demo_feature_sum_hot :
    demo_feature_sum (fun _ => 0) 0
      [(⟨100, 500, 50, some (25 * 1024 * 1024), 0⟩ : ProcessInfo),
       ⟨100, 500, 50, some (25 * 1024 * 1024), 0⟩,
       ⟨100, 500, 50, some (25 * 1024 * 1024), 0⟩,
       ⟨100, 500, 50, some (25 * 1024 * 1024), 0⟩] ⟨8, 0⟩ = 41/10 := by
  simp [demo_feature_sum, activity_mass, normalize_features, extract_all_features,
    extract_file_features, extract_process_features, extract_honeypot_features,
    extract_temporal_features, max_values, py_list_max]
  norm_num [abs_of_nonneg]

/-- C1 counterexample: in `IntegratedBackend.get_system_state` the untrained
hard error is swallowed by the surrounding `try` and the pipeline answers with
the simulated verdict, whose label is NORMAL - on a non-idle tick (activity
mass 4.1 at or above the DEMO idle threshold 4.0). No error reaches the
caller, contradicting the claim for this pipeline. -/
theorem untrained_nonidle_defaults_normal_counterexample :
    (4 : ℚ) ≤ demo_feature_sum (fun _ => 0) 0
      [(⟨100, 500, 50, some (25 * 1024 * 1024), 0⟩ : ProcessInfo),
       ⟨100, 500, 50, some (25 * 1024 * 1024), 0⟩,
       ⟨100, 500, 50, some (25 * 1024 * 1024), 0⟩,
       ⟨100, 500, 50, some (25 * 1024 * 1024), 0⟩] ⟨8, 0⟩ ∧
    (get_system_state false ⟨1, 0⟩ 17 2 (fun _ => 0) 0
      [(⟨100, 500, 50, some (25 * 1024 * 1024), 0⟩ : ProcessInfo),
       ⟨100, 500, 50, some (25 * 1024 * 1024), 0⟩,
       ⟨100, 500, 50, some (25 * 1024 * 1024), 0⟩,
       ⟨100, 500, 50, some (25 * 1024 * 1024), 0⟩] ⟨8, 0⟩).prediction = "NORMAL" := by
  constructor
  · rw [demo_feature_sum_hot]; norm_num
  · unfold get_system_state
    rw [demo_feature_sum_hot]
    norm_num [predict_with_confidence, ml_predict, ml_predict_proba, simulate_state, Except.bind, Except.map]

/-- C2: whenever the decoy status reports a compromise, the classification
verdict is RANSOMWARE with score at least 90, independent of the classifier
output: in `analyze_current_state` the final score is exactly
`max(base_score, 90)` (so the override can only raise the score), and in the
DEMO `get_system_state` with an available oracle the same override applies. -/
theorem decoy_override_forces_ransomware (is_trained : Bool) (o : OracleOutput)
    (sim_score sim_fsum : ℚ) (std : List ℚ → ℚ) (now : ℚ) (fs : List FileEvent)
    (ps : List ProcessInfo) (hp : HoneypotStatus) (hcomp : 0 < hp.compromised) :
    (∀ pr a, analysis_base is_trained o std now fs ps hp = Except.ok pr →
      analyze_current_state is_trained o std now fs ps hp = Except.ok a →
      a.prediction = "RANSOMWARE" ∧ a.threat_score = max pr.2 90 ∧
      pr.2 ≤ a.threat_score ∧ 90 ≤ a.threat_score) ∧
    ((get_system_state true o sim_score sim_fsum std now ps hp).prediction = "RANSOMWARE" ∧
      90 ≤ (get_system_state true o sim_score sim_fsum std now ps hp).threat_score) := by
  constructor
  · intro pr a hbase hok
    unfold analyze_current_state at hok
    rw [hbase] at hok
    simp only [Except.map, Except.ok.injEq] at hok
    subst hok
    simp [hcomp, le_max_left, le_max_right]
  · by_cases hidle : demo_feature_sum std now ps hp < 4
    · unfold get_system_state
      simp only []
      rw [if_pos hidle]
      simp [hcomp, le_max_right]
    · unfold get_system_state
      simp only []
      rw [if_neg hidle]
      simp [predict_with_confidence, ml_predict, ml_predict_proba, Except.bind, Except.map,
        hcomp, le_max_right]

/-- Witness for `decoy_override_forces_ransomware` at a concrete input: empty
telemetry with one compromised decoy, trained oracle answering (1, 0). -/
theorem decoy_override_forces_ransomware_witness :
    analyze_current_state true ⟨1, 0⟩ (fun _ => 0) 0 [] [] ⟨8, 1⟩ =
      Except.ok ⟨"RANSOMWARE", 90, "CRITICAL", 29/40, false⟩ ∧
    (⟨"RANSOMWARE", 90, "CRITICAL", 29/40, false⟩ : Analysis).prediction = "RANSOMWARE" ∧
    (90 : ℚ) ≤ (⟨"RANSOMWARE", 90, "CRITICAL", 29/40, false⟩ : Analysis).threat_score ∧
    (get_system_state true ⟨1, 0⟩ 17 2 (fun _ => 0) 0 [] ⟨8, 1⟩).prediction = "RANSOMWARE" ∧
    (90 : ℚ) ≤ (get_system_state true ⟨1, 0⟩ 17 2 (fun _ => 0) 0 [] ⟨8, 1⟩).threat_score := by
  have hsum : analysis_feature_sum (fun _ => 0) 0 [] [] ⟨8, 1⟩ = 29/40 := by
    simp [analysis_feature_sum, activity_mass, normalize_features, extract_all_features,
      extract_file_features, extract_process_features, extract_honeypot_features,
      extract_temporal_features, max_values]
    norm_num [abs_of_nonneg]
  have heval : analyze_current_state true ⟨1, 0⟩ (fun _ => 0) 0 [] [] ⟨8, 1⟩ =
      Except.ok ⟨"RANSOMWARE", 90, "CRITICAL", 29/40, false⟩ := by
    unfold analyze_current_state analysis_base
    rw [hsum]
    norm_num [predict_with_confidence, ml_predict, ml_predict_proba, Except.map, Except.bind]
  have h := decoy_override_forces_ransomware true ⟨1, 0⟩ 17 2 (fun _ => 0) 0 [] [] ⟨8, 1⟩
    (by norm_num)
  have hbase : analysis_base true ⟨1, 0⟩ (fun _ => 0) 0 [] [] ⟨8, 1⟩ = Except.ok (1, 50) := by
    unfold analysis_base
    rw [hsum]
    norm_num [predict_with_confidence, ml_predict, ml_predict_proba, Except.map, Except.bind]
  have h1 := h.1 (1, 50) ⟨"RANSOMWARE", 90, "CRITICAL", 29/40, false⟩ hbase heval
  exact ⟨heval, h1.1, h1.2.2.2, h.2.1, h.2.2⟩

/-- C3 amended: in `Stage1IntegratedSystem.analyze_current_state` the threat
level is a total function of (score, label, decoy count): CRITICAL exactly
when decoy count is positive or the label is RANSOMWARE or the score exceeds
70; otherwise HIGH exactly when the score exceeds 50; otherwise MEDIUM exactly
when the score exceeds 30; otherwise LOW. (The DEMO pipeline drops the
RANSOMWARE-label disjunct; see the counterexample.) -/
theorem threat_level_grading (is_trained : Bool) (o : OracleOutput) (std : List ℚ → ℚ)
    (now : ℚ) (fs : List FileEvent) (ps : List ProcessInfo) (hp : HoneypotStatus)
    (a : Analysis) (hok : analyze_current_state is_trained o std now fs ps hp = Except.ok a) :
    (a.threat_level = "CRITICAL" ↔
      (0 < hp.compromised ∨ a.prediction = "RANSOMWARE" ∨ 70 < a.threat_score)) ∧
    (¬(0 < hp.compromised ∨ a.prediction = "RANSOMWARE" ∨ 70 < a.threat_score) →
      (a.threat_level = "HIGH" ↔ 50 < a.threat_score)) ∧
    (¬(0 < hp.compromised ∨ a.prediction = "RANSOMWARE" ∨ 70 < a.threat_score) →
      a.threat_score ≤ 50 → (a.threat_level = "MEDIUM" ↔ 30 < a.threat_score)) ∧
    (¬(0 < hp.compromised ∨ a.prediction = "RANSOMWARE" ∨ 70 < a.threat_score) →
      a.threat_score ≤ 50 → a.threat_score ≤ 30 → a.threat_level = "LOW") := by
  rcases hbase : analysis_base is_trained o std now fs ps hp with msg | pr
  · unfold analyze_current_state at hok
    rw [hbase] at hok
    simp [Except.map] at hok
  · unfold analyze_current_state at hok
    rw [hbase] at hok
    simp only [Except.map, Except.ok.injEq] at hok
    subst hok
    by_cases hcomp : 0 < hp.compromised
    · simp [hcomp]
    · by_cases hidle : analysis_feature_sum std now fs ps hp < (2⁻¹ : ℚ)
      · have hidle2 : ¬ ((2⁻¹ : ℚ) ≤ analysis_feature_sum std now fs ps hp) :=
          not_le.mpr hidle
        by_cases h70 : (70 : ℚ) < pr.2
        · simp [hcomp, hidle, hidle2, h70]
        · have h70a : pr.2 ≤ 70 := not_lt.mp h70
          by_cases h50 : (50 : ℚ) < pr.2
          · simp [hcomp, hidle, hidle2, h70, h70a, h50]
          · have h50a : pr.2 ≤ 50 := not_lt.mp h50
            by_cases h30 : (30 : ℚ) < pr.2
            · simp [hcomp, hidle, hidle2, h70, h70a, h50, h50a, h30]
            · have h30a : pr.2 ≤ 30 := not_lt.mp h30
              simp [hcomp, hidle, hidle2, h70, h70a, h50, h50a, h30, h30a]
      · have hidle2 : (2⁻¹ : ℚ) ≤ analysis_feature_sum std now fs ps hp := not_lt.mp hidle
        by_cases hr : pr.1 = -1
        · simp [hcomp, hidle, hidle2, hr]
        · by_cases h70 : (70 : ℚ) < pr.2
          · simp [hcomp, hidle, hidle2, hr, h70]
          · have h70a : pr.2 ≤ 70 := not_lt.mp h70
            by_cases h50 : (50 : ℚ) < pr.2
            · simp [hcomp, hidle, hidle2, hr, h70, h70a, h50]
            · have h50a : pr.2 ≤ 50 := not_lt.mp h50
              by_cases h30 : (30 : ℚ) < pr.2
              · simp [hcomp, hidle, hidle2, hr, h70, h70a, h50, h50a, h30]
              · have h30a : pr.2 ≤ 30 := not_lt.mp h30
                simp [hcomp, hidle, hidle2, hr, h70, h70a, h50, h50a, h30, h30a]

/-- Witness for `threat_level_grading`: at the empty-telemetry tick with a
trained oracle answering (1, 0) the verdict is (NORMAL, 50, MEDIUM) and the
grading equivalence instantiates to show the level is not CRITICAL. -/
theorem threat_level_grading_witness :
    analyze_current_state true ⟨1, 0⟩ (fun _ => 0) 0 [] [] ⟨8, 0⟩ =
      Except.ok ⟨"NORMAL", 50, "MEDIUM", 1/2, false⟩ ∧
    ¬((⟨"NORMAL", 50, "MEDIUM", 1/2, false⟩ : Analysis).threat_level = "CRITICAL") := by
  refine ⟨analysis_empty_tick_eval, ?_⟩
  have h := (threat_level_grading true ⟨1, 0⟩ (fun _ => 0) 0 [] [] ⟨8, 0⟩
    ⟨"NORMAL", 50, "MEDIUM", 1/2, false⟩ analysis_empty_tick_eval).1
  rw [h]
  push_neg
  exact ⟨by norm_num, by decide, by norm_num⟩

/-- C3 counterexample: the DEMO pipeline grades a verdict whose label is
RANSOMWARE (oracle prediction -1, decision value -0.05, score 55) as HIGH, not
CRITICAL, with no decoy compromised - the RANSOMWARE-label disjunct of the
claimed grading is absent from `get_system_state` (lines 195-203). -/
theorem threat_level_missing_label_disjunct_counterexample :
    (get_system_state true ⟨-1, -1/20⟩ 17 2 (fun _ => 0) 0
      [(⟨100, 500, 50, some (25 * 1024 * 1024), 0⟩ : ProcessInfo),
       ⟨100, 500, 50, some (25 * 1024 * 1024), 0⟩,
       ⟨100, 500, 50, some (25 * 1024 * 1024), 0⟩,
       ⟨100, 500, 50, some (25 * 1024 * 1024), 0⟩] ⟨8, 0⟩) =
      ⟨55, "HIGH", "RANSOMWARE", 41/10, false⟩ ∧
    (⟨8, 0⟩ : HoneypotStatus).compromised = 0 := by
  constructor
  · unfold get_system_state
    rw [demo_feature_sum_hot]
    norm_num [predict_with_confidence, ml_predict, ml_predict_proba, Except.bind, Except.map]
  · rfl

/-- C7 amended: in the DEMO pipeline (idle threshold 4.0), the empty-telemetry
tick with decoy status (8 total, 0 compromised) is graded NORMAL / LOW /
idle with score 5.0, for every oracle state and every reading of the opaque
parameters. -/
theorem empty_telemetry_demo_scenario (is_trained : Bool) (o : OracleOutput)
    (sim_score sim_fsum : ℚ) (std : List ℚ → ℚ) (now : ℚ) :
    get_system_state is_trained o sim_score sim_fsum std now [] ⟨8, 0⟩ =
      ⟨5, "LOW", "NORMAL", 1/2, true⟩ := by
  have hsum : demo_feature_sum std now [] ⟨8, 0⟩ = 1/2 := by
    simp [demo_feature_sum, activity_mass, normalize_features, extract_all_features,
      extract_file_features, extract_process_features, extract_honeypot_features,
      extract_temporal_features, max_values]
    norm_num
  unfold get_system_state
  rw [hsum]
  norm_num

/-- C7 counterexample: in the FINAL pipeline (idle threshold 0.5) the same
empty-telemetry tick has activity mass exactly 0.5, which is not below the
threshold: the tick is graded not idle, the oracle is consulted, and (for a
trained oracle answering (1, 0)) the verdict is NORMAL / 50 / MEDIUM with
idle = false - not LOW / 5.0 / idle = true as claimed. -/
theorem empty_telemetry_not_idle_counterexample :
    analyze_current_state true ⟨1, 0⟩ (fun _ => 0) 0 [] [] ⟨8, 0⟩ =
      Except.ok ⟨"NORMAL", 50, "MEDIUM", 1/2, false⟩ ∧
    analysis_feature_sum (fun _ => 0) 0 [] [] ⟨8, 0⟩ = 1/2 :=
  ⟨analysis_empty_tick_eval, analysis_feature_sum_empty (fun _ => 0) 0⟩

/-- C10: for every empty telemetry batch with an uncompromised decoy status,
the normalized feature vector is zero everywhere except the
activity-consistency component, which is 1/2 (raw default 1 over ceiling 2);
the activity mass is hence exactly 1/2, and the tick is graded idle
(mass < threshold) exactly when the idle threshold exceeds 1/2. -/
theorem empty_batch_feature_vector (std : List ℚ → ℚ) (now : ℚ) (hp : HoneypotStatus)
    (h : hp.compromised = 0) :
    normalize_features (extract_all_features std now [] [] (some hp)) =
      [0, 0, 0, 0, 0, 0, 0, 0, 0, 0, 0, 0, 0, 0, 1/2] ∧
    activity_mass (normalize_features (extract_all_features std now [] [] (some hp))) = 1/2 ∧
    (∀ thr : ℚ,
      activity_mass (normalize_features (extract_all_features std now [] [] (some hp))) < thr ↔
        1/2 < thr) := by
  have hhp : extract_honeypot_features (some hp) = [0, 0] := by
    simp [extract_honeypot_features, h]
  have hvec : normalize_features (extract_all_features std now [] [] (some hp)) =
      [0, 0, 0, 0, 0, 0, 0, 0, 0, 0, 0, 0, 0, 0, 1/2] := by
    simp [normalize_features, extract_all_features, extract_file_features,
      extract_process_features, hhp, extract_temporal_features, max_values]
    norm_num
  have hmass : activity_mass (normalize_features (extract_all_features std now [] [] (some hp))) =
      1/2 := by
    rw [hvec]
    simp [activity_mass]
  exact ⟨hvec, hmass, fun thr => by rw [hmass]⟩

/-- Witness for `empty_batch_feature_vector` at the concrete decoy status
(8 total, 0 compromised). -/
theorem empty_batch_feature_vector_witness :
    normalize_features (extract_all_features (fun _ => 0) 0 [] [] (some ⟨8, 0⟩)) =
      [0, 0, 0, 0, 0, 0, 0, 0, 0, 0, 0, 0, 0, 0, 1/2] ∧
    activity_mass (normalize_features (extract_all_features (fun _ => 0) 0 [] [] (some ⟨8, 0⟩))) =
      1/2 :=
  ⟨(empty_batch_feature_vector (fun _ => 0) 0 ⟨8, 0⟩ rfl).1,
   (empty_batch_feature_vector (fun _ => 0) 0 ⟨8, 0⟩ rfl).2.1⟩

/-- The terminate step is always labelled KILL_PROCESS. -/
theorem kill_action_name (pid : Option ℤ) (pid_exists : ℤ → Bool) (outcome : KillOutcome) :
    (kill_malicious_process pid pid_exists outcome).action = "KILL_PROCESS" := by
  cases pid with
  | none => rfl
  | some p =>
    by_cases hc : p ≠ 0 ∧ pid_exists p = true
    · cases outcome <;> simp [kill_malicious_process, hc]
    · simp [kill_malicious_process, hc]

/-- The folder-lock step is always labelled LOCK_FOLDERS. -/
theorem lock_action_name (demo_mode : Bool) (critical_folders : List String)
    (folder_exists : String → Bool) (chmod_error : String → Option String) :
    (lock_critical_folders demo_mode critical_folders folder_exists chmod_error).action =
      "LOCK_FOLDERS" := by
  rcases hl : lock_folders_loop folder_exists chmod_error
      (if demo_mode then ["Safe_Demo_Folder"] else critical_folders) [] with ⟨locked, _ | e⟩ <;>
    simp [lock_critical_folders, hl]

/-- C9: when the pid is absent or names no existing process, the terminate
step raises nothing and reports success (already gone counts as success),
whatever the kill outcome parameter would have been. -/
theorem kill_process_missing_pid_success (pid : Option ℤ) (pid_exists : ℤ → Bool)
    (outcome : KillOutcome)
    (h : pid = none ∨ ∀ p, pid = some p → pid_exists p = false) :
    (kill_malicious_process pid pid_exists outcome).success = true := by
  cases pid with
  | none => rfl
  | some p =>
    rcases h with h | h
    · simp at h
    · have hp := h p rfl
      simp [kill_malicious_process, hp]

/-- Witness for `kill_process_missing_pid_success`: a `None` pid. -/
theorem kill_process_missing_pid_success_witness :
    (kill_malicious_process none (fun _ => true) KillOutcome.no_such_process).success = true :=
  kill_process_missing_pid_success none (fun _ => true) KillOutcome.no_such_process (Or.inl rfl)

/-- C8 counterexample: with both feature flags off, a threat whose indicators
match no technique on a fresh tracker leaves the detected list empty,
`predict_next_stage` returns the keyless early dict, and `respond_to_threat`
raises an uncaught KeyError at the `prediction["current_stage"]` subscript
(stage3_mitigation.py line 91): this run produces no aggregated result at all,
let alone one with two step results and a measured `target_met`. -/
theorem orchestrator_keyerror_on_empty_chain_counterexample :
    respond_to_threat tracker_init (fun _ => false) 0 ⟨["Documents"], false, false⟩ true
      none (fun _ => false) KillOutcome.no_such_process (fun _ => true) (fun _ => none)
      none false 0 1 0 20 = Except.error "KeyError: current_stage" := rfl

/-- C8 amended: on every run that produces a response package - the
prediction subscripts find their keys exactly when at least one technique has
been detected - with `auto_isolate = false` and `auto_restore = false` the
orchestrator executes exactly the two steps terminate-then-lock, and
`target_met` is the comparison of the measured elapsed wall time (end minus
start of the invocation) against 10 seconds, not a fixed constant; on a run
whose attack chain is still empty the orchestrator instead raises an uncaught
KeyError and returns no package. -/
theorem orchestrator_two_actions_measured_target (tracker : TrackerState)
    (indicators : BehaviorIndicators) (tick : Nat) (cfg : MitigationConfig)
    (demo_mode : Bool) (pid : Option ℤ) (pid_exists : ℤ → Bool) (outcome : KillOutcome)
    (folder_exists : String → Bool) (chmod_error : String → Option String)
    (net_error : Option String) (backup_dir_present : Bool) (backup_file_count : Nat)
    (mit_elapsed start_time end_time : ℚ)
    (h1 : cfg.auto_isolate = false) (h2 : cfg.auto_restore = false) :
    ∀ pkg tr1,
      respond_to_threat tracker indicators tick cfg demo_mode pid pid_exists outcome
        folder_exists chmod_error net_error backup_dir_present backup_file_count
        mit_elapsed start_time end_time = Except.ok (pkg, tr1) →
      pkg.mitigation_result.actions_taken.map (fun a => a.action) =
        ["KILL_PROCESS", "LOCK_FOLDERS"] ∧
      pkg.mitigation_result.actions_taken.length = 2 ∧
      (pkg.target_met = true ↔ end_time - start_time < 10) := by
  intro pkg tr1 hok
  unfold respond_to_threat at hok
  simp only [] at hok
  rcases hcs : (predict_next_stage (record_behavior tick indicators tracker).2).current_stage
    with _ | pred_stage
  · rw [hcs] at hok
    simp at hok
  · rw [hcs] at hok
    rcases hu : (predict_next_stage (record_behavior tick indicators tracker).2).urgency
      with _ | urg
    · rw [hu] at hok
      simp at hok
    · rw [hu] at hok
      simp only [Except.ok.injEq, Prod.mk.injEq] at hok
      obtain ⟨hpkg, htr⟩ := hok
      subst hpkg
      unfold execute_mitigation
      simp [h1, h2, kill_action_name, lock_action_name]

/-- Witness for `orchestrator_two_actions_measured_target`: indicators with
file discovery set detect T1083 on a fresh tracker, the prediction subscripts
find their keys, and a 20-second run with both flags off yields exactly the
two step results with `target_met` false because 20 seconds is not below 10. -/
theorem orchestrator_two_actions_measured_target_witness :
    respond_to_threat tracker_init (fun k => k == "file_discovery") 0
      ⟨["Documents"], false, false⟩ true none (fun _ => false)
      KillOutcome.no_such_process (fun _ => true) (fun _ => none) none false 0 1 0 20 =
      Except.ok
        (⟨"CONTAINED", 20, false,
          ⟨[⟨"KILL_PROCESS", true, "Process not found or already terminated", [], 0, none⟩,
            ⟨"LOCK_FOLDERS", true, "Locked 1 folders", ["Safe_Demo_Folder"], 0, none⟩],
            1, "SUCCESS"⟩, 6⟩,
          ⟨[⟨"T1083", "File and Directory Discovery", 6, 0,
             "Discovery - Enumerate files for encryption"⟩], 6,
           [⟨"T1083", "File and Directory Discovery", 6, 0,
             "Discovery - Enumerate files for encryption"⟩]⟩) ∧
    [(⟨"KILL_PROCESS", true, "Process not found or already terminated", [], 0, none⟩ : ActionResult),
     ⟨"LOCK_FOLDERS", true, "Locked 1 folders", ["Safe_Demo_Folder"], 0, none⟩].map
      (fun a => a.action) = ["KILL_PROCESS", "LOCK_FOLDERS"] ∧
    [(⟨"KILL_PROCESS", true, "Process not found or already terminated", [], 0, none⟩ : ActionResult),
     ⟨"LOCK_FOLDERS", true, "Locked 1 folders", ["Safe_Demo_Folder"], 0, none⟩].length = 2 ∧
    (false = true ↔ (20 : ℚ) - 0 < 10) := by
  have hd : (((20 : ℚ) - 0 < 10)) = False := by norm_num
  have heval : respond_to_threat tracker_init (fun k => k == "file_discovery") 0
      ⟨["Documents"], false, false⟩ true none (fun _ => false)
      KillOutcome.no_such_process (fun _ => true) (fun _ => none) none false 0 1 0 20 =
      Except.ok
        (⟨"CONTAINED", 20, false,
          ⟨[⟨"KILL_PROCESS", true, "Process not found or already terminated", [], 0, none⟩,
            ⟨"LOCK_FOLDERS", true, "Locked 1 folders", ["Safe_Demo_Folder"], 0, none⟩],
            1, "SUCCESS"⟩, 6⟩,
          ⟨[⟨"T1083", "File and Directory Discovery", 6, 0,
             "Discovery - Enumerate files for encryption"⟩], 6,
           [⟨"T1083", "File and Directory Discovery", 6, 0,
             "Discovery - Enumerate files for encryption"⟩]⟩) := by
    have hrec : record_behavior 0 (fun k => k == "file_discovery") tracker_init =
        (["T1083"],
         ⟨[⟨"T1083", "File and Directory Discovery", 6, 0,
            "Discovery - Enumerate files for encryption"⟩], 6,
          [⟨"T1083", "File and Directory Discovery", 6, 0,
            "Discovery - Enumerate files for encryption"⟩]⟩) := rfl
    have hcs2 : (predict_next_stage
        ⟨[⟨"T1083", "File and Directory Discovery", 6, 0,
           "Discovery - Enumerate files for encryption"⟩], 6,
         [⟨"T1083", "File and Directory Discovery", 6, 0,
           "Discovery - Enumerate files for encryption"⟩]⟩).current_stage = some 6 := rfl
    have hu2 : (predict_next_stage
        ⟨[⟨"T1083", "File and Directory Discovery", 6, 0,
           "Discovery - Enumerate files for encryption"⟩], 6,
         [⟨"T1083", "File and Directory Discovery", 6, 0,
           "Discovery - Enumerate files for encryption"⟩]⟩).urgency = some "HIGH" := rfl
    have hmit : execute_mitigation ⟨["Documents"], false, false⟩ true none (fun _ => false)
        KillOutcome.no_such_process (fun _ => true) (fun _ => none) none false 0 1 =
        ⟨[⟨"KILL_PROCESS", true, "Process not found or already terminated", [], 0, none⟩,
          ⟨"LOCK_FOLDERS", true, "Locked 1 folders", ["Safe_Demo_Folder"], 0, none⟩],
          1, "SUCCESS"⟩ := rfl
    unfold respond_to_threat
    simp only [hrec]
    norm_num [hcs2, hu2, hmit, hd]
  have h := orchestrator_two_actions_measured_target tracker_init
    (fun k => k == "file_discovery") 0 ⟨["Documents"], false, false⟩ true none
    (fun _ => false) KillOutcome.no_such_process (fun _ => true) (fun _ => none) none
    false 0 1 0 20 rfl rfl
    ⟨"CONTAINED", 20, false,
      ⟨[⟨"KILL_PROCESS", true, "Process not found or already terminated", [], 0, none⟩,
        ⟨"LOCK_FOLDERS", true, "Locked 1 folders", ["Safe_Demo_Folder"], 0, none⟩],
        1, "SUCCESS"⟩, 6⟩
    ⟨[⟨"T1083", "File and Directory Discovery", 6, 0,
       "Discovery - Enumerate files for encryption"⟩], 6,
     [⟨"T1083", "File and Directory Discovery", 6, 0,
       "Discovery - Enumerate files for encryption"⟩]⟩ heval
  exact ⟨heval, h.1, h.2.1, h.2.2⟩
